import Mathlib

/-!
Verification of the cl_analysis data pipeline (pull-request signals →
file-level signals → per-date historical windows → scalar features).

The Lean definitions below are a shallow embedding of the Python sources:

* `src/data/feature_extraction.py`   — the FeatureExtractor reductions.
* `src/data/file_level_transformation.py` — the DataTransformer.
* `src/data/constants.py`            — the declared column converters.

Modelling conventions:

* A pandas cell that may be NaN is an `Option` value: `none` models a
  NaN/absent cell, `some l` models a cell holding the textual encoding of
  the value `l` (the Python code first tests `pd.isna` and then applies
  `eval` to the stored text; the embedding works with the decoded value
  directly).
* Python floats are modelled as `ℚ` (all arithmetic performed by the
  pipeline on the values of interest is exact: sums and divisions of
  machine-representable quantities).
* Python `for` loops that mutate an accumulator are modelled as explicit
  recursive loop functions over the list together with the accumulator.
-/

/-! ## Feature extractor reductions (src/data/feature_extraction.py) -/

/-- Embeds `FeatureExtractor.compute_count`: length of the decoded list,
`0` for a NaN cell (the code returns 0 when `pd.isna(lst)`, 0 when the
decoded list is empty, and the length otherwise). -/
def compute_count {α : Type} (lst : Option (List α)) : ℕ :=
  match lst with
  | none => 0
  | some l => if l.length = 0 then 0 else l.length

/-- Embeds `FeatureExtractor.compute_avg`: average of the decoded list,
`0.0` for a NaN cell or an empty list. -/
def compute_avg (lst : Option (List ℚ)) : ℚ :=
  match lst with
  | none => 0
  | some l => if l.length = 0 then 0 else l.sum / l.length

/-- Embeds `FeatureExtractor.compute_sum`: sum of the decoded list,
`0.0` for a NaN cell (Python `sum` of an empty list is `0`). -/
def compute_sum (lst : Option (List ℚ)) : ℚ :=
  match lst with
  | none => 0
  | some l => l.sum

/-- The loop body of `compute_nonzero_count`:
`for e in lst: if e != 0: count += 1`. -/
def nonzero_count_loop : List ℚ → ℕ → ℕ
  | [], count => count
  | e :: rest, count => nonzero_count_loop rest (if e ≠ 0 then count + 1 else count)

/-- Embeds `FeatureExtractor.compute_nonzero_count`. -/
def compute_nonzero_count (lst : Option (List ℚ)) : ℕ :=
  match lst with
  | none => 0
  | some l => nonzero_count_loop l 0

/-- The loop of `compute_nonzero_avg`, accumulating `(total, count)`:
`for e in lst: if e != 0: total += e; count += 1`. -/
def nonzero_avg_loop : List ℚ → ℚ × ℕ → ℚ × ℕ
  | [], acc => acc
  | e :: rest, acc =>
      nonzero_avg_loop rest (if e ≠ 0 then (acc.1 + e, acc.2 + 1) else acc)

/-- Embeds `FeatureExtractor.compute_nonzero_avg`: average of the nonzero
entries, `0.0` for a NaN cell or when no nonzero entry exists. -/
def compute_nonzero_avg (lst : Option (List ℚ)) : ℚ :=
  match lst with
  | none => 0
  | some l =>
      let acc := nonzero_avg_loop l (0, 0)
      if acc.2 = 0 then 0 else acc.1 / (acc.2 : ℚ)

/-- The loop body of `compute_nonzero_sum`:
`for e in lst: if e != 0: total += e`. -/
def nonzero_sum_loop : List ℚ → ℚ → ℚ
  | [], total => total
  | e :: rest, total => nonzero_sum_loop rest (if e ≠ 0 then total + e else total)

/-- Embeds `FeatureExtractor.compute_nonzero_sum`. -/
def compute_nonzero_sum (lst : Option (List ℚ)) : ℚ :=
  match lst with
  | none => 0
  | some l => nonzero_sum_loop l 0

/-- Embeds `FeatureExtractor.compute_avg_count`: comment count divided by
the length of the `pr_ids` argument (a pandas Series), `0.0` for a NaN
cell or when `pr_ids` is empty.  Note that the second argument is
whatever Series the caller passes; `extract_features` passes the whole
`pull request id` column of the table (one entry per table row). -/
def compute_avg_count {α β : Type} (lst : Option (List α)) (pr_ids : List β) : ℚ :=
  match lst with
  | none => 0
  | some l => if pr_ids.length = 0 then 0 else (l.length : ℚ) / (pr_ids.length : ℚ)

/-- Python tuple indexing `t[index]` on a decoded pair, as used with
indices 0 and 1 on the `(num_passed, num_failed)` check-run pairs. -/
def pair_get (t : ℤ × ℤ) (index : Fin 2) : ℤ :=
  if (index : ℕ) = 0 then t.1 else t.2

/-- Python tuple indexing `t[index]` on a decoded triple, as used with
indices 0, 1 and 2 on the `(additions, deletions, changes)` triples. -/
def triple_get (t : ℤ × ℤ × ℤ) (index : Fin 3) : ℤ :=
  if (index : ℕ) = 0 then t.1 else if (index : ℕ) = 1 then t.2.1 else t.2.2

/-- The accumulation loop shared by the component-indexed reductions:
`for t in lst: total += eval(t)[index]`. -/
def tuple_total_loop {α : Type} : List α → (α → ℤ) → ℤ → ℤ
  | [], _, total => total
  | t :: rest, get, total => tuple_total_loop rest get (total + get t)

/-- Embeds `FeatureExtractor.compute_total_check_runs`. -/
def compute_total_check_runs (lst : Option (List (ℤ × ℤ))) (index : Fin 2) : ℤ :=
  match lst with
  | none => 0
  | some l =>
      if l.length = 0 then 0 else tuple_total_loop l (fun t => pair_get t index) 0

/-- Embeds `FeatureExtractor.compute_avg_check_runs`. -/
def compute_avg_check_runs (lst : Option (List (ℤ × ℤ))) (index : Fin 2) : ℚ :=
  match lst with
  | none => 0
  | some l =>
      if l.length = 0 then 0
      else ((tuple_total_loop l (fun t => pair_get t index) 0 : ℤ) : ℚ) / (l.length : ℚ)

/-- Embeds `FeatureExtractor.compute_total_file_changes`. -/
def compute_total_file_changes (lst : Option (List (ℤ × ℤ × ℤ))) (index : Fin 3) : ℤ :=
  match lst with
  | none => 0
  | some l =>
      if l.length = 0 then 0 else tuple_total_loop l (fun t => triple_get t index) 0

/-- Embeds `FeatureExtractor.compute_avg_file_changes`. -/
def compute_avg_file_changes (lst : Option (List (ℤ × ℤ × ℤ))) (index : Fin 3) : ℚ :=
  match lst with
  | none => 0
  | some l =>
      if l.length = 0 then 0
      else ((tuple_total_loop l (fun t => triple_get t index) 0 : ℤ) : ℚ) / (l.length : ℚ)

/-- One row of the per-date aggregated file-level table consumed by
`FeatureExtractor.extract_features` (only the columns relevant to the
review-comment feature are carried). -/
structure WindowRow where
  repo_name : String
  file_name : String
  pull_request_id : Option (List ℤ)
  review_comments_msg : Option (List String)

/-- Embeds the last statement of `FeatureExtractor.extract_features`:
the new column is obtained by applying `compute_avg_count` to each cell
of the `review comments msg` column with
`args=[self._file_level_data['pull request id']]`, i.e. the second
argument is the entire `pull request id` column of the table (its length
is the number of table rows), not the per-row decoded id list. -/
def extract_review_comments_avg_count (file_level_data : List WindowRow) : List ℚ :=
  file_level_data.map (fun row =>
    compute_avg_count row.review_comments_msg
      (file_level_data.map (fun r => r.pull_request_id)))

/-! ## File-level transformer (src/data/file_level_transformation.py) -/

/-- The loop of `_count_check_run_status` (identical in
`DataTransformer` and `DataAggregator`): two independent `if` tests per
entry, one bumping `num_passed` and one bumping `num_failed`. -/
def count_check_run_loop : List String → ℕ × ℕ → ℕ × ℕ
  | [], acc => acc
  | s :: rest, acc =>
      let acc1 := if s = "passed" then (acc.1 + 1, acc.2) else acc
      let acc2 := if s = "failed" then (acc1.1, acc1.2 + 1) else acc1
      count_check_run_loop rest acc2

/-- Embeds `_count_check_run_status`: returns
`(num_passed, num_failed)` for a list of check-run outcome strings. -/
def count_check_run_status (check_run_results : List String) : ℕ × ℕ :=
  count_check_run_loop check_run_results (0, 0)

/-- The decoded pull-request-related column values of one input row, as
produced by `_get_value_dict` from `PULL_REQUEST_RELATED_COLUMNS`
(src/data/constants.py).  `_transform_pr_related_signals` always writes
all of these columns together into a file entry, so the bundle is stored
as one value. -/
structure PRValues where
  author : String
  pull_request_id : ℤ
  created_time : String
  closed_time : String
  review_time : ℚ
  reverted_pull_request_id : ℤ
  revert_time : ℚ
  num_review_comments : ℤ
  num_issue_comments : ℤ
  issue_comments_msg : List String
  num_approved_reviewers : ℤ
  approved_reviewers : List String
  num_commits : ℤ
  num_line_changes : ℤ
deriving DecidableEq

/-- Embeds the `FileData` objects of `file_level_transformation.py`: the
`file_name`/`repo_name` attributes (initialised to `None`) plus the
`data` dictionary.  Each dictionary key of the source is one field here;
`none` models the key being absent from `data`. -/
structure FileData where
  file_name : Option String := none
  repo_name : Option String := none
  file_versions : Option ℤ := none
  files_changes : Option (ℤ × ℤ × ℤ) := none
  review_comments_msg : Option (List String) := none
  pr_related : Option PRValues := none
  check_run_results : Option (ℕ × ℕ) := none
deriving DecidableEq

/-- The per-row `file_data_dict`, an insertion-ordered mapping from file
path to `FileData` (Python dictionaries preserve insertion order). -/
abbrev FileDataMap := List (String × FileData)

/-- Key lookup in a `FileDataMap`. -/
def lookupFD : FileDataMap → String → Option FileData
  | [], _ => none
  | (k, fd) :: rest, key => if k = key then some fd else lookupFD rest key

/-- The entry stored under `key`, or a fresh `FileData` when absent
(what `defaultdict(FileData)` hands out on access). -/
def getFD (m : FileDataMap) (key : String) : FileData :=
  (lookupFD m key).getD {}

/-- Whether `key` has an entry in the map. -/
def containsFD (m : FileDataMap) (key : String) : Bool :=
  (lookupFD m key).isSome

/-- Models the statement `file_data_dict[key].data[...] = ...` (and the
attribute assignments) under `defaultdict(FileData)` semantics: accessing
a missing key creates a fresh entry (appended, preserving insertion
order), and the entry under `key` is then updated by `f`. -/
def modifyFD : FileDataMap → String → (FileData → FileData) → FileDataMap
  | [], key, f => [(key, f {})]
  | (k, fd) :: rest, key, f =>
      if k = key then (k, f fd) :: rest else (k, fd) :: modifyFD rest key f

/-- Python truthiness test `not x` on an optional string attribute:
true for `None` and for the empty string. -/
def falsy_str : Option String → Bool
  | none => true
  | some s => s == ""

/-- Embeds `DataTransformer._transform_pr_related_signals`: for every
file name (the keys of `file versions`), set the `file_name` and
`repo_name` attributes if still falsy, store every pull-request-related
column value, and store the `(num_passed, num_failed)` pair computed by
`_count_check_run_status`. -/
def transform_pr_related_signals (pr_related_values : PRValues)
    (file_names : List String) (repo_name : String)
    (check_run_results : List String) (m : FileDataMap) : FileDataMap :=
  file_names.foldl
    (fun m file_name =>
      modifyFD m file_name (fun fd =>
        let fd := if falsy_str fd.file_name then
            { fd with file_name := some file_name } else fd
        let fd := if falsy_str fd.repo_name then
            { fd with repo_name := some repo_name } else fd
        let fd := { fd with pr_related := some pr_related_values }
        let counted := count_check_run_status check_run_results
        { fd with check_run_results := some counted }))
    m

/-- Embeds `DataTransformer._transform_file_related_signals`: store the
version count for every file in `file versions`; store the
`(addition, deletion, changes)` triple for every entry of
`files changes` (plain assignment, so a later entry for the same path
overwrites an earlier one); append each review-comment message to the
comment list of the file it names, initialising the list when the key is
absent or falsy. -/
def transform_file_related_signals (file_versions : List (String × ℤ))
    (files_changes : List (String × ℤ × ℤ × ℤ))
    (review_comments_msg : List (String × String))
    (m : FileDataMap) : FileDataMap :=
  let m := file_versions.foldl
    (fun m fv => modifyFD m fv.1 (fun fd => { fd with file_versions := some fv.2 })) m
  let m := files_changes.foldl
    (fun m fc => modifyFD m fc.1 (fun fd => { fd with files_changes := some fc.2 })) m
  review_comments_msg.foldl
    (fun m rc => modifyFD m rc.1 (fun fd =>
      let cur := match fd.review_comments_msg with
        | none => []
        | some l => if l = [] then [] else l
      { fd with review_comments_msg := some (cur ++ [rc.2]) }))
    m

/-- Embeds one iteration of `DataTransformer.transform` for a single
input row: build a fresh `file_data_dict`, apply
`_transform_pr_related_signals` over the keys of `file versions`, then
`_transform_file_related_signals`. -/
def transform_row (pr_related_values : PRValues)
    (file_versions : List (String × ℤ))
    (files_changes : List (String × ℤ × ℤ × ℤ))
    (review_comments_msg : List (String × String))
    (repo_name : String) (check_run_results : List String) : FileDataMap :=
  let m : FileDataMap := []
  let m := transform_pr_related_signals pr_related_values
    (file_versions.map (fun fv => fv.1)) repo_name check_run_results m
  transform_file_related_signals file_versions files_changes
    review_comments_msg m

/-- The file records one input row appends to `_file_level_data`: every
entry of `file_data_dict`, its `data` dictionary extended with the
`file name` and `repo name` attributes (both already carried inside
`FileData` here). -/
def transform_row_records (pr_related_values : PRValues)
    (file_versions : List (String × ℤ))
    (files_changes : List (String × ℤ × ℤ × ℤ))
    (review_comments_msg : List (String × String))
    (repo_name : String) (check_run_results : List String) : List FileData :=
  (transform_row pr_related_values file_versions files_changes
    review_comments_msg repo_name check_run_results).map (fun e => e.2)

/-- A concrete bundle of pull-request-related values, used by the
concrete evaluations below. -/
def samplePRValues : PRValues where
  author := "alice"
  pull_request_id := 1
  created_time := "2020-01-01T00:00:00Z"
  closed_time := "2020-01-02T00:00:00Z"
  review_time := 100
  reverted_pull_request_id := 0
  revert_time := 0
  num_review_comments := 2
  num_issue_comments := 0
  issue_comments_msg := []
  num_approved_reviewers := 1
  approved_reviewers := ["bob"]
  num_commits := 1
  num_line_changes := 10

/-! ## Column decoding (`_get_value_dict`, src/data/constants.py) -/

/-- The declared converter of a column, exactly as listed in
`PULL_REQUEST_RELATED_COLUMNS` / `FILE_RELATED_COLUMNS` in
src/data/constants.py: the Python builtins `str`, `int`, `float`, or
`eval`. -/
inductive PyConverter where
  | pyStr
  | pyInt
  | pyFloat
  | pyEval
deriving DecidableEq

/-- Embeds `PULL_REQUEST_RELATED_COLUMNS` (src/data/constants.py): each
declared column name with its declared converter, in dictionary
order. -/
def pull_request_related_columns : List (String × PyConverter) :=
  [("author", .pyStr),
   ("pull request id", .pyInt),
   ("pull request created time", .pyStr),
   ("pull request closed time", .pyStr),
   ("pull request review time", .pyFloat),
   ("reverted pull request id", .pyInt),
   ("pull request revert time", .pyFloat),
   ("num review comments", .pyInt),
   ("num issue comments", .pyInt),
   ("issue comments msg", .pyEval),
   ("num approved reviewers", .pyInt),
   ("approved reviewers", .pyEval),
   ("num commits", .pyInt),
   ("num line changes", .pyInt)]

/-- Embeds `FILE_RELATED_COLUMNS` (src/data/constants.py). -/
def file_related_columns : List (String × PyConverter) :=
  [("files changes", .pyEval),
   ("file versions", .pyEval),
   ("review comments msg", .pyEval)]

/-- The exception a converter raises on text that is not a valid
literal of its declared shape, with the payload Python attaches:
`int` raises `ValueError("invalid literal for int() with base 10: ...")`
quoting the offending text, `float` raises
`ValueError("could not convert string to float: ...")` quoting the
offending text, and `eval` raises `SyntaxError("invalid syntax")`,
whose message does not even include the text.  No variant carries a row
index or a column name, because the Python exceptions do not.  `str`
has no variant at all: it is total and never raises. -/
inductive PyError where
  | valueErrorInt (txt : String)
  | valueErrorFloat (txt : String)
  | syntaxError
deriving DecidableEq

/-- A raw stored cell as seen by the declared converter of its column
(the type is indexed by that converter): either the text is a
syntactically valid literal of the converter's shape, decoding to `v`,
or it is malformed with raw text `txt`.  Malformed cells exist only at
the `int`, `float` and `eval` indices: `str` accepts every text, so a
cell of a str column is always valid. -/
inductive Cell (V : Type) : PyConverter → Type where
  | valid {conv : PyConverter} (v : V) : Cell V conv
  | malformedInt (txt : String) : Cell V .pyInt
  | malformedFloat (txt : String) : Cell V .pyFloat
  | malformedEval (txt : String) : Cell V .pyEval

/-- Whether the raw text of the cell fails to be a valid literal of its
column's declared shape. -/
def Cell.is_malformed {V : Type} {conv : PyConverter} : Cell V conv → Bool
  | .valid _ => false
  | .malformedInt _ => true
  | .malformedFloat _ => true
  | .malformedEval _ => true

/-- Applying the declared converter to a cell: a valid cell decodes, a
malformed cell raises the converter-specific exception described at
`PyError`. -/
def convert_cell {V : Type} {conv : PyConverter} : Cell V conv → Except PyError V
  | .valid v => .ok v
  | .malformedInt txt => .error (.valueErrorInt txt)
  | .malformedFloat txt => .error (.valueErrorFloat txt)
  | .malformedEval txt => .error .syntaxError

/-- A row of the raw table, as `_get_value_dict` reads it: for each
declared column (name and converter), the raw cell stored there. -/
abbrev RawRow (V : Type) := (c : String × PyConverter) → Cell V c.2

/-- Embeds `DataTransformer._get_value_dict` for one column family: walk
the declared columns in dictionary order, apply each column's declared
converter to the corresponding cell of the row, and collect the values
dictionary.  The first malformed cell raises, aborting the whole
dictionary (nothing is substituted). -/
def get_value_dict {V : Type} (columns : List (String × PyConverter))
    (row : RawRow V) : Except PyError (List (String × V)) :=
  match columns with
  | [] => .ok []
  | c :: rest =>
      match convert_cell (row c) with
      | .error e => .error e
      | .ok v =>
          match get_value_dict rest row with
          | .error e => .error e
          | .ok tail => .ok ((c.1, v) :: tail)

/-- Embeds the row loop of `DataTransformer.transform` as far as error
flow is concerned: each row goes through `_get_value_dict`; no exception
is caught anywhere in the pipeline, so the first raising row aborts the
whole run. -/
def transform_rows {V : Type} (columns : List (String × PyConverter))
    (rows : List (RawRow V)) :
    Except PyError (List (List (String × V))) :=
  match rows with
  | [] => .ok []
  | r :: rest =>
      match get_value_dict columns r with
      | .error e => .error e
      | .ok values =>
          match transform_rows columns rest with
          | .error e => .error e
          | .ok tail => .ok (values :: tail)

/-- A concrete raw row over `pull_request_related_columns` whose
`pull request id` cell (an `int` column) holds the text "abc", which is
not an integer literal; every other cell is valid.  Realizable:
`int("abc")` raises `ValueError("invalid literal for int() with base
10: ...")` quoting the text. -/
def row_bad_pull_request_id : RawRow ℤ :=
  fun c =>
    match c with
    | (_, .pyStr) => Cell.valid 0
    | (name, .pyInt) =>
        if name = "pull request id" then Cell.malformedInt "abc" else Cell.valid 0
    | (_, .pyFloat) => Cell.valid 0
    | (_, .pyEval) => Cell.valid 0

/-- A second concrete raw row, malformed instead at the
`reverted pull request id` cell (also an `int` column), with the same
text "abc"; every other cell is valid. -/
def row_bad_reverted_id : RawRow ℤ :=
  fun c =>
    match c with
    | (_, .pyStr) => Cell.valid 0
    | (name, .pyInt) =>
        if name = "reverted pull request id" then Cell.malformedInt "abc"
        else Cell.valid 0
    | (_, .pyFloat) => Cell.valid 0
    | (_, .pyEval) => Cell.valid 0

/-! ## Historical window aggregation

The per-date windowed aggregation (and its helpers `remove_nan` and
`flatten_lst`) is exercised by `src/data/file_level_aggregation_test.py`
but the function bodies are not present in the source tree snapshot;
the definitions in this section are modelled from the specification. -/

/-- Modelled from the spec: the day number of a proleptic Gregorian
civil date (days since 1970-01-01); the window arithmetic of the
Historical Window Aggregator is day-granular over ISO-8601 dates. -/
def epoch_day (y m d : ℤ) : ℤ :=
  let y2 := if m ≤ 2 then y - 1 else y
  let era := y2.fdiv 400
  let yoe := y2 - era * 400
  let mp := if 2 < m then m - 3 else m + 9
  let doy := (153 * mp + 2).fdiv 5 + d - 1
  let doe := yoe * 365 + yoe.fdiv 4 - yoe.fdiv 100 + doy
  era * 146097 + doe - 719468

/-- A point in time, in seconds since 1970-01-01T00:00:00. -/
def time_stamp (y m d hh mi ss : ℤ) : ℤ :=
  epoch_day y m d * 86400 + hh * 3600 + mi * 60 + ss

/-- Modelled from the spec: `start = floor_to_midnight(d − (r+1) days)`,
as seconds, for a target date given as its day number. -/
def window_start (target_day : ℤ) (range : ℕ) : ℤ :=
  (target_day - ((range : ℤ) + 1)) * 86400

/-- Modelled from the spec: `end = 23:59:59 of (d − 1 day)`, as
seconds, for a target date given as its day number. -/
def window_end (target_day : ℤ) : ℤ :=
  (target_day - 1) * 86400 + (23 * 3600 + 59 * 60 + 59)

/-- The FileSignal fields the window membership test reads: the closed
timestamp of the parent pull request (always present, per the upstream
contract), plus the grouping keys. -/
structure FileSignalRec where
  file_name : String
  repo_name : String
  closed_time : ℤ

/-- Modelled from the spec: a FileSignal is included in the window for
target date `d` and lookback range `r` iff
`start ≤ closed_timestamp ≤ end`. -/
def in_window (target_day : ℤ) (range : ℕ) (ts : ℤ) : Bool :=
  decide (window_start target_day range ≤ ts) && decide (ts ≤ window_end target_day)

/-- Modelled from the spec: the Historical Window Aggregator keeps
exactly the FileSignal records of the population whose parent closed
timestamp lies inside the window. -/
def aggregate_window (target_day : ℤ) (range : ℕ)
    (population : List FileSignalRec) : List FileSignalRec :=
  population.filter (fun fs => in_window target_day range fs.closed_time)

/-- Modelled from the spec (and from the unit test
`test_remove_nan`): `remove_nan` drops the NaN entries of a collected
list and keeps everything else in order. -/
def remove_nan {α : Type} (lst : List (Option α)) : List (Option α) :=
  lst.filter (fun e => e.isSome)

/-- Modelled from the spec: for a pull-request-related or file-related
column, the Historical Window Aggregator collects one scalar entry per
contributing FileSignal (in input order, `none` for a NaN entry) and
stores the collected list with its NaN entries stripped. -/
def aggregate_pr_column {α : Type} (contributions : List (Option α)) :
    List (Option α) :=
  remove_nan contributions

/-! ## Helper lemmas -/

lemma count_check_run_loop_eq (l : List String) (acc : ℕ × ℕ) :
    count_check_run_loop l acc
      = (acc.1 + l.countP (fun s => s == "passed"),
         acc.2 + l.countP (fun s => s == "failed")) := by
  induction l generalizing acc with
  | nil => simp [count_check_run_loop]
  | cons s t ih =>
    simp only [count_check_run_loop, ih, List.countP_cons]
    by_cases h1 : s = "passed" <;> by_cases h2 : s = "failed" <;>
      simp [h1, h2, Prod.ext_iff] <;> omega

lemma nonzero_count_loop_eq (l : List ℚ) (c : ℕ) :
    nonzero_count_loop l c = c + (l.filter (fun e => decide (e ≠ 0))).length := by
  induction l generalizing c with
  | nil => simp [nonzero_count_loop]
  | cons e t ih =>
    simp only [nonzero_count_loop, ih, List.filter_cons]
    by_cases h : e = 0
    · simp [h]
    · simp [h]; omega

lemma nonzero_sum_loop_eq (l : List ℚ) (total : ℚ) :
    nonzero_sum_loop l total = total + (l.filter (fun e => decide (e ≠ 0))).sum := by
  induction l generalizing total with
  | nil => simp [nonzero_sum_loop]
  | cons e t ih =>
    simp only [nonzero_sum_loop, ih, List.filter_cons]
    by_cases h : e = 0
    · simp [h]
    · simp [h]; ring

lemma nonzero_avg_loop_eq (l : List ℚ) (acc : ℚ × ℕ) :
    nonzero_avg_loop l acc
      = (acc.1 + (l.filter (fun e => decide (e ≠ 0))).sum,
         acc.2 + (l.filter (fun e => decide (e ≠ 0))).length) := by
  induction l generalizing acc with
  | nil => simp [nonzero_avg_loop]
  | cons e t ih =>
    simp only [nonzero_avg_loop, ih, List.filter_cons]
    by_cases h : e = 0
    · simp [h]
    · simp [h, Prod.ext_iff]
      exact ⟨by ring, by omega⟩

/-! ## Claim theorems -/

/-- Claim C6: the check-run classifier returns the pair made of the
number of entries equal to "passed" and the number of entries equal to
"failed"; entries equal to "none" or any other value increment neither
counter, and in particular the outcome list
`["passed", "failed", "none", "passed"]` yields `(2, 1)`. -/
theorem count_check_run_status_spec :
    (∀ l : List String,
      count_check_run_status l
        = (l.countP (fun s => s == "passed"),
           l.countP (fun s => s == "failed"))) ∧
    count_check_run_status ["passed", "failed", "none", "passed"] = (2, 1) := by
  refine ⟨fun l => ?_, by decide⟩
  simp [count_check_run_status, count_check_run_loop_eq]

/-- Claim C7: the nonzero reductions exclude zero entries from both the
count and the statistic: `compute_nonzero_count` is the number of
entries different from 0, `compute_nonzero_sum` their sum,
`compute_nonzero_avg` their sum over their count (0 when none exist);
on `[1, 2, 0, 1, 6, 0, 2]` they give 5, 12 and 2.4. -/
theorem compute_nonzero_spec :
    (∀ l : List ℚ,
      compute_nonzero_count (some l) = (l.filter (fun e => decide (e ≠ 0))).length ∧
      compute_nonzero_sum (some l) = (l.filter (fun e => decide (e ≠ 0))).sum ∧
      compute_nonzero_avg (some l)
        = (if (l.filter (fun e => decide (e ≠ 0))).length = 0 then 0
           else (l.filter (fun e => decide (e ≠ 0))).sum
             / ((l.filter (fun e => decide (e ≠ 0))).length : ℚ))) ∧
    compute_nonzero_count (some [1, 2, 0, 1, 6, 0, 2]) = 5 ∧
    compute_nonzero_sum (some [1, 2, 0, 1, 6, 0, 2]) = 12 ∧
    compute_nonzero_avg (some [1, 2, 0, 1, 6, 0, 2]) = 2.4 := by
  refine ⟨fun l => ⟨?_, ?_, ?_⟩,
    by norm_num [compute_nonzero_count, nonzero_count_loop],
    by norm_num [compute_nonzero_sum, nonzero_sum_loop],
    by norm_num [compute_nonzero_avg, nonzero_avg_loop]⟩
  · simp [compute_nonzero_count, nonzero_count_loop_eq]
  · simp [compute_nonzero_sum, nonzero_sum_loop_eq]
  · simp [compute_nonzero_avg, nonzero_avg_loop_eq]

/-- Claim C8: every reduction of the Feature Extractor yields on an
absent (NaN) input column exactly the value it yields on an empty
list. -/
theorem reductions_absent_eq_empty :
    (∀ α : Type,
      compute_count (none : Option (List α)) = compute_count (some ([] : List α))) ∧
    compute_avg none = compute_avg (some []) ∧
    compute_sum none = compute_sum (some []) ∧
    compute_nonzero_count none = compute_nonzero_count (some []) ∧
    compute_nonzero_avg none = compute_nonzero_avg (some []) ∧
    compute_nonzero_sum none = compute_nonzero_sum (some []) ∧
    (∀ pr_ids : List (Option (List ℤ)),
      compute_avg_count (none : Option (List String)) pr_ids
        = compute_avg_count (some ([] : List String)) pr_ids) ∧
    (∀ index : Fin 2,
      compute_total_check_runs none index = compute_total_check_runs (some []) index) ∧
    (∀ index : Fin 2,
      compute_avg_check_runs none index = compute_avg_check_runs (some []) index) ∧
    (∀ index : Fin 3,
      compute_total_file_changes none index
        = compute_total_file_changes (some []) index) ∧
    (∀ index : Fin 3,
      compute_avg_file_changes none index = compute_avg_file_changes (some []) index) := by
  refine ⟨fun α => rfl, rfl, rfl, rfl, rfl, rfl, fun pr_ids => ?_,
    fun index => rfl, fun index => rfl, fun index => rfl, fun index => rfl⟩
  simp [compute_avg_count]

/-- Claim C3: evaluation of the extractor wiring at a concrete window
table.  The `review comments msg avg count` feature divides each row's
comment count by the number of rows of the table, not by the length of
that row's pull-request-id list: with two table rows, a file whose
window lists 5 contributing pull requests and 2 comments gets the value
`2 / 2 = 1`, not the `2 / 5 = 0.4` the claim requires. -/
theorem extract_avg_count_uses_table_length :
    extract_review_comments_avg_count
        [{ repo_name := "r", file_name := "fileA",
           pull_request_id := some [1, 2, 3, 4, 5],
           review_comments_msg := some ["m1", "m2"] },
         { repo_name := "r", file_name := "fileB",
           pull_request_id := some [7],
           review_comments_msg := none }]
      = [1, 0] ∧ (1 : ℚ) ≠ 2 / 5 := by
  constructor
  · norm_num [extract_review_comments_avg_count, compute_avg_count]
  · norm_num

/-! ## Map lemmas for the transformer -/

lemma lookupFD_modifyFD (m : FileDataMap) (k key : String) (f : FileData → FileData) :
    lookupFD (modifyFD m k f) key
      = if k = key then some (f (getFD m k)) else lookupFD m key := by
  induction m with
  | nil =>
    by_cases h : k = key <;> simp [modifyFD, lookupFD, getFD, h]
  | cons hd t ih =>
    obtain ⟨k1, fd⟩ := hd
    by_cases h1 : k1 = k
    · subst h1
      by_cases h2 : k1 = key <;> simp [modifyFD, lookupFD, getFD, h2]
    · by_cases h2 : k1 = key
      · subst h2
        simp [modifyFD, lookupFD, getFD, h1, Ne.symm h1]
      · simp [modifyFD, lookupFD, getFD, h1, h2, ih]

lemma getFD_modifyFD (m : FileDataMap) (k key : String) (f : FileData → FileData) :
    getFD (modifyFD m k f) key = if k = key then f (getFD m k) else getFD m key := by
  unfold getFD
  rw [lookupFD_modifyFD]
  by_cases h : k = key <;> simp [h, getFD]

lemma containsFD_modifyFD (m : FileDataMap) (k key : String) (f : FileData → FileData) :
    containsFD (modifyFD m k f) key = true ↔ k = key ∨ containsFD m key = true := by
  unfold containsFD
  rw [lookupFD_modifyFD]
  by_cases h : k = key <;> simp [h]

lemma containsFD_foldl_modify {σ : Type} (kf : σ → String)
    (uf : σ → FileData → FileData) (l : List σ) (m : FileDataMap) (key : String) :
    containsFD (l.foldl (fun m x => modifyFD m (kf x) (uf x)) m) key = true
      ↔ key ∈ l.map kf ∨ containsFD m key = true := by
  induction l generalizing m with
  | nil => simp
  | cons x t ih =>
    simp only [List.foldl_cons, List.map_cons, List.mem_cons]
    rw [ih, containsFD_modifyFD]
    constructor
    · rintro (h | h | h)
      · exact Or.inl (Or.inr h)
      · exact Or.inl (Or.inl h.symm)
      · exact Or.inr h
    · rintro ((h | h) | h)
      · exact Or.inr (Or.inl h.symm)
      · exact Or.inl h
      · exact Or.inr (Or.inr h)

lemma getFD_foldl_modify_not_mem {σ : Type} (kf : σ → String)
    (uf : σ → FileData → FileData) (l : List σ) (m : FileDataMap) (key : String)
    (h : key ∉ l.map kf) :
    getFD (l.foldl (fun m x => modifyFD m (kf x) (uf x)) m) key = getFD m key := by
  induction l generalizing m with
  | nil => simp
  | cons x t ih =>
    simp only [List.map_cons, List.mem_cons] at h
    push_neg at h
    simp only [List.foldl_cons]
    rw [ih _ h.2, getFD_modifyFD, if_neg (fun hk => h.1 hk.symm)]

lemma getFD_foldl_modify_proj {σ γ : Type} (g : FileData → γ) (kf : σ → String)
    (uf : σ → FileData → FileData) (hg : ∀ x fd, g (uf x fd) = g fd)
    (l : List σ) (m : FileDataMap) (key : String) :
    g (getFD (l.foldl (fun m x => modifyFD m (kf x) (uf x)) m) key)
      = g (getFD m key) := by
  induction l generalizing m with
  | nil => rfl
  | cons x t ih =>
    simp only [List.foldl_cons]
    rw [ih, getFD_modifyFD]
    by_cases hk : kf x = key
    · rw [if_pos hk, hg, hk]
    · rw [if_neg hk]

lemma files_changes_foldl (fc : List (String × ℤ × ℤ × ℤ)) (m : FileDataMap)
    (key : String) :
    (getFD (fc.foldl
        (fun m x => modifyFD m x.1 (fun fd => { fd with files_changes := some x.2 }))
        m) key).files_changes
      = ((fc.reverse.find? (fun q => q.1 == key)).map (fun q => q.2)).or
          ((getFD m key).files_changes) := by
  induction fc generalizing m with
  | nil => simp
  | cons x t ih =>
    simp only [List.foldl_cons, List.reverse_cons]
    rw [ih, getFD_modifyFD, List.find?_append]
    cases hfind : t.reverse.find? (fun q => q.1 == key) with
    | some q => simp [hfind, Option.or]
    | none =>
      by_cases hk : x.1 = key
      · simp [hfind, hk, Option.or, List.find?]
      · have hb : (x.1 == key) = false := beq_eq_false_iff_ne.mpr hk
        simp [hfind, hb, hk, Option.or, List.find?]

lemma transform_row_contains (prv : PRValues) (fv : List (String × ℤ))
    (fc : List (String × ℤ × ℤ × ℤ)) (rc : List (String × String))
    (repo : String) (crs : List String) (key : String) :
    containsFD (transform_row prv fv fc rc repo crs) key = true
      ↔ key ∈ fv.map (fun p => p.1) ∨ key ∈ fc.map (fun p => p.1)
          ∨ key ∈ rc.map (fun p => p.1) := by
  simp only [transform_row, transform_file_related_signals,
    transform_pr_related_signals]
  rw [containsFD_foldl_modify, containsFD_foldl_modify, containsFD_foldl_modify,
    containsFD_foldl_modify]
  have hbase : (containsFD [] key = true) ↔ False := by
    simp [containsFD, lookupFD]
  rw [hbase]
  simp only [List.map_id']
  tauto

lemma transform_row_files_changes (prv : PRValues) (fv : List (String × ℤ))
    (fc : List (String × ℤ × ℤ × ℤ)) (rc : List (String × String))
    (repo : String) (crs : List String) (key : String) :
    (getFD (transform_row prv fv fc rc repo crs) key).files_changes
      = (fc.reverse.find? (fun q => q.1 == key)).map (fun q => q.2) := by
  simp only [transform_row, transform_file_related_signals,
    transform_pr_related_signals]
  rw [getFD_foldl_modify_proj FileData.files_changes]
  rw [files_changes_foldl]
  rw [getFD_foldl_modify_proj FileData.files_changes]
  rw [getFD_foldl_modify_proj FileData.files_changes]
  · simp [getFD, lookupFD]
  · intro x fd
    by_cases h1 : falsy_str fd.file_name <;> by_cases h2 : falsy_str fd.repo_name <;>
      simp [h1, h2]
  · intro x fd
    rfl
  · intro x fd
    rfl

lemma transform_row_file_name (prv : PRValues) (fv : List (String × ℤ))
    (fc : List (String × ℤ × ℤ × ℤ)) (rc : List (String × String))
    (repo : String) (crs : List String) (key : String)
    (h : key ∉ fv.map (fun p => p.1)) :
    (getFD (transform_row prv fv fc rc repo crs) key).file_name = none := by
  simp only [transform_row, transform_file_related_signals,
    transform_pr_related_signals]
  rw [getFD_foldl_modify_proj FileData.file_name]
  rw [getFD_foldl_modify_proj FileData.file_name]
  rw [getFD_foldl_modify_proj FileData.file_name]
  rw [getFD_foldl_modify_not_mem]
  · simp [getFD, lookupFD]
  · simpa using h
  · intro x fd
    rfl
  · intro x fd
    rfl
  · intro x fd
    rfl

/-- Claim C10: when the files-changes list of a pull request contains
several tuples with the same file path, the transformer keeps exactly
the values of the last such tuple (plain dictionary assignment, so an
earlier triple is overwritten, never summed or collected into a list):
the stored triple is the one found by scanning the list from the end,
and `none` when the path never occurs.  Concretely, entries
`(1, 2, 3)` then `(10, 20, 30)` for file "a" leave `(10, 20, 30)`. -/
theorem transform_row_last_file_change_wins :
    (∀ (prv : PRValues) (fv : List (String × ℤ)) (fc : List (String × ℤ × ℤ × ℤ))
       (rc : List (String × String)) (repo : String) (crs : List String)
       (key : String),
      (getFD (transform_row prv fv fc rc repo crs) key).files_changes
        = (fc.reverse.find? (fun q => q.1 == key)).map (fun q => q.2)) ∧
    (getFD (transform_row samplePRValues [("a", 1)]
        [("a", (1, 2, 3)), ("a", (10, 20, 30))] [] "r" []) "a").files_changes
      = some (10, 20, 30) :=
  ⟨transform_row_files_changes, by decide⟩

/-- Claim C2, counterexample: a pull request whose file-versions mapping
is empty but whose review comments name the file "f" contributes one
file record (created on the fly by the review-comment loop through
`defaultdict` access), not zero records as the claim states; the comment
is not dropped. -/
theorem transform_row_empty_versions_still_creates_record :
    (transform_row_records samplePRValues [] [] [("f", "hi")] "r" []).length = 1 := by
  decide

/-- Claim C2 (amended): the transformer produces one file record for
every path mentioned in file-versions, files-changes or review-comments
— not only for the paths of file-versions; a review comment naming a
path absent from file-versions creates a record rather than being
dropped, and that record keeps an unset file-name attribute, since only
file-versions paths are given file names. -/
theorem transform_row_covers_mentioned_paths :
    (∀ (prv : PRValues) (fv : List (String × ℤ)) (fc : List (String × ℤ × ℤ × ℤ))
       (rc : List (String × String)) (repo : String) (crs : List String)
       (key : String),
      containsFD (transform_row prv fv fc rc repo crs) key = true
        ↔ key ∈ fv.map (fun p => p.1) ∨ key ∈ fc.map (fun p => p.1)
            ∨ key ∈ rc.map (fun p => p.1)) ∧
    (∀ (prv : PRValues) (fv : List (String × ℤ)) (fc : List (String × ℤ × ℤ × ℤ))
       (rc : List (String × String)) (repo : String) (crs : List String)
       (key : String), key ∉ fv.map (fun p => p.1) →
      (getFD (transform_row prv fv fc rc repo crs) key).file_name = none) :=
  ⟨transform_row_contains, transform_row_file_name⟩

/-- Witness for the amended claim C2, at the concrete input of the
counterexample: the record created for the comment-only path "f" exists
with an unset file name. -/
theorem transform_row_covers_mentioned_paths_witness :
    (getFD (transform_row samplePRValues [] [] [("f", "hi")] "r" []) "f").file_name
      = none :=
  transform_row_covers_mentioned_paths.2 samplePRValues [] [] [("f", "hi")] "r" []
    "f" (by simp)

/-- Claim C4, counterexample: for the file "a", present in file-versions
but absent from files-changes, the produced record carries no
files-changes value at all (the dictionary key is missing, hence NaN in
the output table), which is not the zero triple the claim requires. -/
theorem transform_row_absent_changes_not_zero_filled :
    (getFD (transform_row samplePRValues [("a", 1)] [] [] "r" []) "a").files_changes
        = none ∧
    (none : Option (ℤ × ℤ × ℤ)) ≠ some (0, 0, 0) := by
  exact ⟨by decide, by decide⟩

/-- Claim C4 (amended): for every file path present in file-versions but
absent from files-changes, the transformer does create the file record,
but leaves its files-changes entry missing (no key in the data
dictionary, hence NaN downstream) instead of zero-filling it with
`(0, 0, 0)`. -/
theorem transform_row_missing_changes_stays_absent :
    ∀ (prv : PRValues) (fv : List (String × ℤ)) (fc : List (String × ℤ × ℤ × ℤ))
      (rc : List (String × String)) (repo : String) (crs : List String)
      (key : String), key ∈ fv.map (fun p => p.1) → key ∉ fc.map (fun p => p.1) →
      containsFD (transform_row prv fv fc rc repo crs) key = true ∧
      (getFD (transform_row prv fv fc rc repo crs) key).files_changes = none := by
  intro prv fv fc rc repo crs key hfv hfc
  constructor
  · exact (transform_row_contains prv fv fc rc repo crs key).mpr (Or.inl hfv)
  · rw [transform_row_files_changes]
    have hnone : fc.reverse.find? (fun q => q.1 == key) = none := by
      rw [List.find?_eq_none]
      intro q hq
      simp only [beq_iff_eq]
      intro hqk
      exact hfc (hqk ▸ List.mem_map_of_mem (fun p => p.1) (List.mem_reverse.mp hq))
    rw [hnone]
    rfl

/-- Witness for the amended claim C4 at a concrete input. -/
theorem transform_row_missing_changes_stays_absent_witness :
    containsFD (transform_row samplePRValues [("a", 1)] [] [] "r" []) "a" = true ∧
    (getFD (transform_row samplePRValues [("a", 1)] [] [] "r" []) "a").files_changes
      = none :=
  transform_row_missing_changes_stays_absent samplePRValues [("a", 1)] [] [] "r" []
    "a" (by simp) (by simp)

/-- A malformed cell always makes its converter raise. -/
lemma convert_cell_of_is_malformed {V : Type} {conv : PyConverter}
    (c : Cell V conv) (h : c.is_malformed = true) :
    ∃ e, convert_cell c = Except.error e := by
  cases c with
  | valid v => simp [Cell.is_malformed] at h
  | malformedInt txt => exact ⟨_, rfl⟩
  | malformedFloat txt => exact ⟨_, rfl⟩
  | malformedEval txt => exact ⟨_, rfl⟩

/-- Claim C9, counterexample: two rows whose malformed cell (text
"abc") sits in different declared `int` columns of
`PULL_REQUEST_RELATED_COLUMNS` — `pull request id` for the first row,
`reverted pull request id` for the second — make `_get_value_dict`
raise the very same exception, the int-converter ValueError quoting
only the offending text; the raised error therefore identifies neither
the row nor the column, and no MalformedColumnError type with
provenance exists in the code. -/
theorem get_value_dict_error_lacks_provenance :
    get_value_dict pull_request_related_columns row_bad_pull_request_id
      = get_value_dict pull_request_related_columns row_bad_reverted_id ∧
    get_value_dict pull_request_related_columns row_bad_pull_request_id
      = Except.error (PyError.valueErrorInt "abc") := by
  exact ⟨rfl, rfl⟩

/-- Claim C9 (amended): a raw column value that is not a valid literal
of its declared shape makes `_get_value_dict` fail with the
converter-specific exception, so the row yields no values dictionary
(nothing is substituted), and the pipeline loop, which catches nothing,
propagates the error, aborting the whole run; the exception carries at
most the offending text, without a dedicated error type or row/column
provenance. -/
theorem get_value_dict_malformed_aborts :
    ∀ (V : Type) (columns : List (String × PyConverter)) (row : RawRow V)
      (c : String × PyConverter),
      c ∈ columns → (row c).is_malformed = true →
      (∃ e, get_value_dict columns row = Except.error e) ∧
      ∀ (pre post : List (RawRow V)),
        ∃ e, transform_rows columns (pre ++ row :: post) = Except.error e := by
  intro V columns row c hmem hmal
  have hdict : ∃ e, get_value_dict columns row = Except.error e := by
    induction columns with
    | nil => cases hmem
    | cons c0 rest ih =>
      cases hconv : convert_cell (row c0) with
      | error e => exact ⟨e, by simp [get_value_dict, hconv]⟩
      | ok v =>
        have hc : c ∈ rest := by
          rcases List.mem_cons.mp hmem with h | h
          · subst h
            obtain ⟨e0, he0⟩ := convert_cell_of_is_malformed (row c) hmal
            rw [he0] at hconv
            cases hconv
          · exact h
        obtain ⟨e, he⟩ := ih hc
        exact ⟨e, by simp [get_value_dict, hconv, he]⟩
  refine ⟨hdict, ?_⟩
  intro pre post
  induction pre with
  | nil =>
    obtain ⟨e, he⟩ := hdict
    exact ⟨e, by simp [transform_rows, he]⟩
  | cons r pre ih =>
    cases hr : get_value_dict columns r with
    | error e => exact ⟨e, by simp [transform_rows, hr]⟩
    | ok v =>
      obtain ⟨e, he⟩ := ih
      exact ⟨e, by simp [transform_rows, hr, he]⟩

/-- Witness for the amended claim C9 at a concrete input: one row over
the declared pull-request-related columns whose `pull request id` cell
(an `int` column) holds the non-integer text "abc". -/
theorem get_value_dict_malformed_aborts_witness :
    (∃ e, get_value_dict pull_request_related_columns row_bad_pull_request_id
      = Except.error e) ∧
    ∃ e, transform_rows pull_request_related_columns [row_bad_pull_request_id]
      = Except.error e := by
  have h := get_value_dict_malformed_aborts ℤ pull_request_related_columns
    row_bad_pull_request_id ("pull request id", PyConverter.pyInt)
    (by simp [pull_request_related_columns]) (by rfl)
  exact ⟨h.1, h.2 [] []⟩

/-- Claim C1: a FileSignal enters the historical window for target date
`d` and lookback range `r` exactly when its parent closed timestamp `t`
satisfies `floor_to_midnight(d − (r+1) days) ≤ t ≤ 23:59:59 of (d − 1)`;
for target date 2020-08-01 and range 30 the timestamp
2020-07-01T23:59:59 is included and 2020-08-01T00:00:00 is excluded, and
in general no timestamp on or after the target-date midnight is ever
included, for any target date and any range. -/
theorem aggregate_window_boundary :
    (∀ (target_day : ℤ) (range : ℕ) (population : List FileSignalRec)
       (fs : FileSignalRec),
      fs ∈ aggregate_window target_day range population
        ↔ fs ∈ population ∧ window_start target_day range ≤ fs.closed_time
            ∧ fs.closed_time ≤ window_end target_day) ∧
    in_window (epoch_day 2020 8 1) 30 (time_stamp 2020 7 1 23 59 59) = true ∧
    in_window (epoch_day 2020 8 1) 30 (time_stamp 2020 8 1 0 0 0) = false ∧
    (∀ (target_day : ℤ) (range offset : ℕ),
      in_window target_day range (target_day * 86400 + (offset : ℤ)) = false) := by
  refine ⟨?_, by decide, by decide, ?_⟩
  · intro target_day range population fs
    simp [aggregate_window, in_window, List.mem_filter]
  · intro target_day range offset
    have hend : ¬(target_day * 86400 + (offset : ℤ) ≤ window_end target_day) := by
      simp only [window_end]
      have : (0 : ℤ) ≤ (offset : ℤ) := Int.natCast_nonneg offset
      linarith
    simp [in_window, hend]

/-- Claim C5: a column list produced by the window aggregator for a
(file, repository) group keeps exactly the non-NaN entries of its
contributing records, in order and unchanged (never coerced to zero),
so it contains no NaN entry and its length is the number of
contributing pull requests that carried a value; on the unit-test list
`[1, 2, None, NaN, 5]` the result is `[1, 2, 5]`. -/
theorem aggregate_pr_column_no_nan :
    (∀ (α : Type) (contributions : List (Option α)),
      (∀ x ∈ aggregate_pr_column contributions, x ≠ none) ∧
      (∀ x, x ∈ aggregate_pr_column contributions
        ↔ x ∈ contributions ∧ x.isSome = true) ∧
      (aggregate_pr_column contributions).length
        = (contributions.filter (fun v => v.isSome)).length) ∧
    aggregate_pr_column [some (1 : ℤ), some 2, none, none, some 5]
      = [some 1, some 2, some 5] := by
  refine ⟨fun α contributions => ⟨?_, ?_, rfl⟩, by decide⟩
  · intro x hx hnone
    subst hnone
    have := List.of_mem_filter hx
    simp at this
  · intro x
    exact List.mem_filter

/-- Witness for claim C5 at a concrete input: the surviving entry of a
concrete contribution list is not `none`. -/
theorem aggregate_pr_column_no_nan_witness :
    (some (1 : ℤ) : Option ℤ) ≠ none :=
  (aggregate_pr_column_no_nan.1 ℤ [some 1, none]).1 (some 1) (by decide)
